import Mathlib

/-!
Verification development for the option-chain visualizer: a shallow
embedding of the chart-generation pipeline of src/app.py and of its
memoized computation cache, with theorems settling the claims of the
specification against it.

Modelling conventions.
Prices, strikes, open interest and volume are rationals; the Python
floats are treated as exact numbers.  The market-data provider (a
yfinance Ticker) is an external collaborator and is modelled as a
record of possibly-failing fetch results, one per provider call the
code makes.  Expiration dates are day numbers (Int); the provider
contract guarantees well-formed YYYY-MM-DD strings, so strptime is
modelled as total and the DTE computation as integer subtraction.
The drawing engine (matplotlib) is an excluded collaborator: an axes
object is modelled by the data the code puts on it (plotted series,
vertical spans, title), and the value of ax.get_xlim()[1] after the
series have been plotted is modelled as the data upper bound of the
x domain, the largest plotted strike (definition xlimUpper).
plt.subplots(r, c) keeps its default squeeze=True behaviour: for a
1 by 1 grid it returns a bare axes object, which has no flatten
attribute, so line 69 raises an uncaught AttributeError; the
definition subplots_flatten models exactly this.  In generate_plot,
a value Except.error e models a Python exception escaping the
function uncaught, while Except.ok (img, msg) models an ordinary
return statement; the encoded image is identified with the chart
specification it encodes (the renderer and the base64 encoder are
excluded collaborators, modelled as total and injective).
-/

/-- One row of an option-chain table: the columns strike,
openInterest and volume of the pandas frame. -/
structure ChainRow where
  strike : ℚ
  openInterest : ℚ
  volume : ℚ
deriving DecidableEq, Repr

/-- Result of ticker.option_chain(date): a pair of tables, one per
side, reachable as the attributes calls and puts. -/
structure OptionChain where
  calls : List ChainRow
  puts : List ChainRow
deriving DecidableEq, Repr

/-- Role of a vertical highlight span: itm models a span drawn with
itm_color (lightgreen), otm one drawn with otm_color (lightcoral),
lines 95 and 96. -/
inductive ColorRole where
  | itm
  | otm
deriving DecidableEq, Repr

/-- One ax.axvspan(lo, hi, color) call. -/
structure Region where
  lo : ℚ
  hi : ℚ
  role : ColorRole
deriving DecidableEq, Repr

/-- State of one panel of the grid: dataS for a panel with plotted
series, emptyS for the No Data placeholder, errorS for the Error
loading data placeholder. -/
inductive PanelState where
  | dataS
  | emptyS
  | errorS
deriving DecidableEq, Repr

/-- What the per-expiration loop body leaves on one axes object. -/
structure Panel where
  title : String
  state : PanelState
  series : Option (List ChainRow)
  regions : List Region
deriving DecidableEq, Repr

/-- The composite figure at the end of generate_plot. -/
structure Chart where
  nRows : ℕ
  nCols : ℕ
  panels : List Panel
  legendLabels : List String
  legendSource : Option ℕ
  suptitle : String
deriving DecidableEq, Repr

/-- Model of the external market-data provider, one field per call
the code makes on a yfinance Ticker: history is the list of closing
prices returned by history(period equal 1d), options the list of
expiration dates, chain d the option chain for date d.  An
Except.error value models the provider call raising. -/
structure Provider where
  history : Except String (List ℚ)
  options : Except String (List Int)
  chain : Int → Except String OptionChain

/-- Python getattr(option_chain, option_type), line 81: the lookup
succeeds only for the two real attributes calls and puts; any other
name raises AttributeError, which the per-panel handler catches. -/
def getattrSide (oc : OptionChain) (option_type : String) : Except String (List ChainRow) :=
  if option_type = "calls" then Except.ok oc.calls
  else if option_type = "puts" then Except.ok oc.puts
  else Except.error ("AttributeError: " ++ option_type)

/-- Sum of the openInterest column, line 83. -/
def sumOI (rows : List ChainRow) : ℚ :=
  (rows.map ChainRow.openInterest).foldr (fun a b => a + b) 0

/-- Largest element of a list of strikes (0 for the empty list). -/
def maxStrike (strikes : List ℚ) : ℚ :=
  strikes.foldr max 0

/-- Modelled from the spec: the drawing engine is an excluded
collaborator, so ax.get_xlim()[1] (lines 100 and 103) after the
series with the given strikes have been plotted is modelled as the
data upper bound of the x domain, the largest plotted strike. -/
def xlimUpper (strikes : List ℚ) : ℚ :=
  maxStrike strikes

/-- Panel title stem, line 105: Expiration date and days to expiry. -/
def expTitle (today d : Int) : String :=
  "Expiration: " ++ toString d ++ " (DTE: " ++ toString (d - today) ++ ")"

/-- Body of the per-expiration loop, lines 74 to 119: fetch the
chain, look up the requested side, and fill one panel; any exception
in the block is caught and turns the panel into the Error
placeholder (lines 116 to 119). -/
def buildPanel (tk : Provider) (option_type : String) (last_price : ℚ)
    (today : Int) (d : Int) : Panel :=
  match (tk.chain d).bind (fun oc => getattrSide oc option_type) with
  | Except.error _ =>
      { title := expTitle today d ++ "\n(Error loading data)",
        state := PanelState.errorS, series := none, regions := [] }
  | Except.ok options_data =>
      if options_data.isEmpty = false ∧ 0 < sumOI options_data then
        let u := xlimUpper (options_data.map ChainRow.strike)
        { title := expTitle today d, state := PanelState.dataS,
          series := some options_data,
          regions :=
            if option_type = "calls" then
              [{ lo := 0, hi := last_price, role := ColorRole.itm },
               { lo := last_price, hi := u, role := ColorRole.otm }]
            else
              [{ lo := 0, hi := last_price, role := ColorRole.otm },
               { lo := last_price, hi := u, role := ColorRole.itm }] }
      else
        { title := expTitle today d ++ "\n(No Data)",
          state := PanelState.emptyS, series := none, regions := [] }

/-- Legend accumulation, lines 71 and 107 to 111: scanning panels in
order, the first Data panel contributes its two series labels and no
later panel does (once the first Data panel has been seen,
all_handles is nonempty and the guard on line 107 is false forever).
Returns the labels together with the index of the source panel. -/
def legendScanAux : ℕ → List Panel → List String × Option ℕ
  | _, [] => ([], none)
  | i, p :: ps =>
      if p.state = PanelState.dataS then (["Open Interest", "Volume"], some i)
      else legendScanAux (i + 1) ps

/-- Legend of the whole figure, drawn on line 128 only when
all_handles is nonempty. -/
def legendScan (ps : List Panel) : List String × Option ℕ :=
  legendScanAux 0 ps

/-- Line 65, math.ceil(math.sqrt(n_dates)), in exact arithmetic: for
1 ≤ n this is the least k with n ≤ k * k. -/
def n_cols (n : ℕ) : ℕ :=
  if n = 0 then 0 else Nat.sqrt (n - 1) + 1

/-- Line 66, math.ceil(n_dates / n_cols), as ceiling division. -/
def n_rows (n : ℕ) : ℕ :=
  (n + n_cols n - 1) / n_cols n

/-- Message of the AttributeError raised by line 69 when
plt.subplots returned a bare axes object. -/
def attrErrMsg : String :=
  "AttributeError: \x27Axes\x27 object has no attribute \x27flatten\x27"

/-- Lines 68 and 69 with the default squeeze=True of plt.subplots:
for a 1 by 1 grid the call returns a bare axes object, which has no
flatten attribute, so axes.flatten() raises an uncaught
AttributeError; for any larger grid it returns an array and
flattening yields the r * c axes. -/
def subplots_flatten (r c : ℕ) : Except String ℕ :=
  if r * c = 1 then Except.error attrErrMsg else Except.ok (r * c)

/-- Message of line 53. -/
def invalidTickerMsg (ticker_symbol : String) : String :=
  "Invalid or unknown ticker: \x27" ++ ticker_symbol ++ "\x27"

/-- Message of line 58. -/
def noExpirationsMsg (ticker_symbol : String) : String :=
  "No option expiration dates found for \x27" ++ ticker_symbol ++ "\x27"

/-- Message of line 61. -/
def fetchErrMsg (e : String) : String :=
  "An error occurred while fetching ticker data: " ++ e

/-- Figure title, lines 124 to 126 (the two-decimal price formatting
of the excluded rendering layer is not modelled). -/
def suptitleOf (option_type ticker_symbol : String) (last_price : ℚ) : String :=
  option_type.capitalize ++ " Option Open Interest & Volume for " ++ ticker_symbol
    ++ " (Price: $" ++ toString last_price ++ ")"

/-- Lines 63 to 139 once ticker-level fetching has succeeded and the
axes array exists: grid sizing, one panel per expiration date in
provider order, shared legend and suptitle assembly. -/
def makeChart (tk : Provider) (ticker_symbol option_type : String)
    (last_price : ℚ) (today : Int) (expiration_dates : List Int) : Chart :=
  let n_dates := expiration_dates.length
  let panels := expiration_dates.map (buildPanel tk option_type last_price today)
  let leg := legendScan panels
  { nRows := n_rows n_dates, nCols := n_cols n_dates, panels := panels,
    legendLabels := leg.1, legendSource := leg.2,
    suptitle := suptitleOf option_type ticker_symbol last_price }

/-- Outcome of one call of generate_plot: an uncaught Python
exception (Except.error) or a returned pair (image, message). -/
abbrev PlotResult := Except String (Option Chart × Option String)

/-- Lines 44 to 139, generate_plot.  Except.ok (img, msg) models an
ordinary return; Except.error e models a Python exception escaping
the function uncaught. -/
def generate_plot (today : Int) (tk : Provider)
    (ticker_symbol option_type : String) : PlotResult :=
  match tk.history with
  | Except.error e => Except.ok (none, some (fetchErrMsg e))
  | Except.ok history =>
    if history.isEmpty then Except.ok (none, some (invalidTickerMsg ticker_symbol))
    else
      let last_price : ℚ := history.getLastD 0
      match tk.options with
      | Except.error e => Except.ok (none, some (fetchErrMsg e))
      | Except.ok expiration_dates =>
        if expiration_dates.isEmpty then
          Except.ok (none, some (noExpirationsMsg ticker_symbol))
        else
          match subplots_flatten (n_rows expiration_dates.length)
              (n_cols expiration_dates.length) with
          | Except.error e => Except.error e
          | Except.ok _ =>
              Except.ok (some (makeChart tk ticker_symbol option_type
                last_price today expiration_dates), none)

/-- True when the call returned an encoded image (and no message). -/
def isImageResult : PlotResult → Bool
  | Except.ok (some _, none) => true
  | _ => false

/-- Panels of the chart a call returned, if any. -/
def panelsOf : PlotResult → List Panel
  | Except.ok (some c, _) => c.panels
  | _ => []

/-- Legend labels of the chart a call returned, if any. -/
def legendLabelsOf : PlotResult → List String
  | Except.ok (some c, _) => c.legendLabels
  | _ => []

/-- Index of the panel the legend was sourced from, if any. -/
def legendSourceOf : PlotResult → Option ℕ
  | Except.ok (some c, _) => c.legendSource
  | _ => none

/-- Placeholder panel used by the total panel accessor. -/
def defaultPanel : Panel :=
  { title := "", state := PanelState.emptyS, series := none, regions := [] }

/-- Total accessor for the j-th panel of the returned chart. -/
def panelAt (r : PlotResult) (j : ℕ) : Panel :=
  (panelsOf r).getD j defaultPanel

/-- State a panel derives from its own chain rows (lines 83 and 112
to 115): Data when the table is nonempty with positive total open
interest, Empty otherwise (specification-side restatement of the
branch, used to phrase per-panel conclusions). -/
def expectedState (rows : List ChainRow) : PanelState :=
  if rows.isEmpty = false ∧ 0 < sumOI rows then PanelState.dataS else PanelState.emptyS

/-- First index whose panel is in Data state (specification-side
definition used to state the legend claim). -/
def firstDataIdx : List Panel → Option ℕ
  | [] => none
  | p :: ps =>
      if p.state = PanelState.dataS then some 0
      else (firstDataIdx ps).map (fun k => k + 1)

/-- Insertion of a row into a strike-sorted list (specification-side
definition, used to state the sortedness claim). -/
def insertByStrike (x : ChainRow) : List ChainRow → List ChainRow
  | [] => [x]
  | y :: ys =>
      if x.strike ≤ y.strike then x :: y :: ys else y :: insertByStrike x ys

/-- Rows sorted by strike ascending (specification-side definition,
used to state the sortedness claim). -/
def sortByStrike : List ChainRow → List ChainRow
  | [] => []
  | x :: xs => insertByStrike x (sortByStrike xs)

/-- Modelled from the spec: the memoized computation cache (the
flask_caching SimpleCache behind the cache.memoize decorator, lines
30 to 43, whose code is not part of this repository) keyed by the
argument pair of generate_plot.  Entries are (key, value,
created_at) triples; newer entries shadow older ones for the same
key. -/
structure CacheState (α : Type) where
  entries : List ((String × String) × α × ℕ)

/-- Modelled from the spec: a lookup returns the stored value while
now < created_at + ttl; expiry is evaluated lazily at lookup time,
so a stale entry is simply treated as absent. -/
def lookupFresh {α : Type} (ttl now : ℕ) :
    List ((String × String) × α × ℕ) → (String × String) → Option α
  | [], _ => none
  | (k0, v, t0) :: rest, k =>
      if k0 = k then (if now < t0 + ttl then some v else none)
      else lookupFresh ttl now rest k

/-- Modelled from the spec: get_or_compute(key, compute_fn).  If the
key has a fresh entry its stored value is returned unchanged;
otherwise compute_fn runs exactly once and its result is stored with
a fresh timestamp.  The boolean reports whether compute_fn ran. -/
def get_or_compute {α : Type} (ttl now : ℕ) (st : CacheState α)
    (k : String × String) (f : Unit → α) : α × CacheState α × Bool :=
  match lookupFresh ttl now st.entries k with
  | some v => (v, st, false)
  | none =>
      let v := f ()
      (v, { entries := (k, v, now) :: st.entries }, true)

/-- The configured time to live, line 32. -/
def CACHE_DEFAULT_TIMEOUT : ℕ := 300

/-- The memoized entry point: generate_plot behind the cache, keyed
by (ticker_symbol, option_type) as the memoize decorator does. -/
def memoized_generate_plot (ttl now : ℕ) (st : CacheState PlotResult)
    (today : Int) (tk : Provider) (ticker_symbol option_type : String) :
    PlotResult × CacheState PlotResult × Bool :=
  get_or_compute ttl now st (ticker_symbol, option_type)
    (fun _ => generate_plot today tk ticker_symbol option_type)

/-! Concrete providers used by witnesses and counterexamples. -/

/-- Chain with positive open interest on both sides. -/
def chainGoodA : OptionChain :=
  { calls := [{ strike := 5, openInterest := 2, volume := 1 },
              { strike := 10, openInterest := 3, volume := 1 }],
    puts := [{ strike := 4, openInterest := 1, volume := 1 }] }

/-- Chain whose calls table has zero total open interest. -/
def chainZeroOI : OptionChain :=
  { calls := [{ strike := 5, openInterest := 0, volume := 0 }], puts := [] }

/-- Chain whose calls rows come back out of strike order. -/
def chainUnsorted : OptionChain :=
  { calls := [{ strike := 10, openInterest := 1, volume := 0 },
              { strike := 5, openInterest := 1, volume := 0 }],
    puts := [] }

/-- Valid ticker with two expiration dates and good chains. -/
def tkGood : Provider :=
  { history := Except.ok [7], options := Except.ok [30, 60],
    chain := fun _ => Except.ok chainGoodA }

/-- Valid ticker with exactly one expiration date, all fetches fine. -/
def tkOneDate : Provider :=
  { history := Except.ok [100], options := Except.ok [30],
    chain := fun _ => Except.ok chainGoodA }

/-- Valid ticker with exactly one expiration date whose chain fetch
fails. -/
def tkOneDateFail : Provider :=
  { history := Except.ok [100], options := Except.ok [30],
    chain := fun _ => Except.error ("boom") }

/-- Valid ticker with three expiration dates; only the first chain
fetch fails, the second has data, the third has zero open
interest. -/
def tkOneBadFetch : Provider :=
  { history := Except.ok [100], options := Except.ok [30, 60, 90],
    chain := fun d =>
      if d = 30 then Except.error ("boom")
      else if d = 60 then Except.ok chainGoodA
      else Except.ok chainZeroOI }

/-- Valid ticker whose last price (10) lies above every listed
strike (only strike is 5). -/
def tkHighPrice : Provider :=
  { history := Except.ok [10],
    options := Except.ok [30, 60],
    chain := fun _ => Except.ok { calls := [{ strike := 5, openInterest := 1, volume := 1 }], puts := [] } }

/-- Valid ticker whose chains come back out of strike order. -/
def tkUnsorted : Provider :=
  { history := Except.ok [7], options := Except.ok [30, 60],
    chain := fun _ => Except.ok chainUnsorted }

/-- Ticker whose trading history is empty. -/
def tkEmptyHist : Provider :=
  { history := Except.ok [], options := Except.ok [30],
    chain := fun _ => Except.ok chainGoodA }

/-- Cache state holding one previously stored error result. -/
def stWithError : CacheState PlotResult :=
  { entries := [(("MSFT", "calls"), Except.ok (none, some (fetchErrMsg ("boom"))), 10)] }

/-- Cache state with no entries. -/
def stEmptyCache : CacheState PlotResult := { entries := [] }

/-! Helper lemmas. -/

theorem str_empty_append (s : String) : "" ++ s = s := by
  cases s
  rfl

theorem str_append_empty (s : String) : s ++ "" = s := by
  cases s with
  | mk l =>
      show String.mk (l ++ []) = String.mk l
      rw [List.append_nil]

theorem n_cols_pos (n : ℕ) (hn : 1 ≤ n) : 1 ≤ n_cols n := by
  unfold n_cols
  rw [if_neg (by omega)]
  omega

theorem le_n_cols_sq (n : ℕ) (hn : 1 ≤ n) : n ≤ n_cols n * n_cols n := by
  obtain ⟨m, rfl⟩ : ∃ m, n = m + 1 := ⟨n - 1, by omega⟩
  unfold n_cols
  rw [if_neg (by omega)]
  simpa using Nat.lt_succ_sqrt m

theorem n_cols_pred_sq_lt (n : ℕ) (hn : 1 ≤ n) :
    (n_cols n - 1) * (n_cols n - 1) < n := by
  obtain ⟨m, rfl⟩ : ∃ m, n = m + 1 := ⟨n - 1, by omega⟩
  unfold n_cols
  rw [if_neg (by omega)]
  simpa using Nat.lt_succ_of_le (Nat.sqrt_le m)

theorem le_n_rows_mul_n_cols (n : ℕ) (hn : 1 ≤ n) : n ≤ n_rows n * n_cols n := by
  have hc : 1 ≤ n_cols n := n_cols_pos n hn
  obtain ⟨c, hc1⟩ : ∃ c, n_cols n = c + 1 := ⟨n_cols n - 1, by omega⟩
  unfold n_rows
  rw [hc1]
  have he : n + (c + 1) - 1 = n + c := by omega
  rw [he]
  have h1 : (c + 1) * ((n + c) / (c + 1)) + (n + c) % (c + 1) = n + c :=
    Nat.div_add_mod _ _
  have h2 : (n + c) % (c + 1) < c + 1 := Nat.mod_lt _ (by omega)
  have h3 : ((n + c) / (c + 1)) * (c + 1) = (c + 1) * ((n + c) / (c + 1)) :=
    Nat.mul_comm _ _
  rw [h3]
  linarith

theorem n_rows_pred_mul_lt (n : ℕ) (hn : 1 ≤ n) :
    (n_rows n - 1) * n_cols n < n := by
  have hc : 1 ≤ n_cols n := n_cols_pos n hn
  obtain ⟨c, hc1⟩ : ∃ c, n_cols n = c + 1 := ⟨n_cols n - 1, by omega⟩
  unfold n_rows
  rw [hc1]
  have he : n + (c + 1) - 1 = n + c := by omega
  rw [he]
  cases hq : (n + c) / (c + 1) with
  | zero => simpa using hn
  | succ t =>
      have h1 : ((n + c) / (c + 1)) * (c + 1) ≤ n + c := Nat.div_mul_le_self _ _
      rw [hq] at h1
      have h2 : (t + 1) * (c + 1) = t * (c + 1) + (c + 1) := by ring
      simp only [Nat.succ_sub_one]
      linarith

theorem subplots_flatten_ok (n : ℕ) (hn : 2 ≤ n) :
    subplots_flatten (n_rows n) (n_cols n) = Except.ok (n_rows n * n_cols n) := by
  unfold subplots_flatten
  rw [if_neg]
  have := le_n_rows_mul_n_cols n (by omega)
  omega

theorem buildPanel_of_error (tk : Provider) (side : String) (lp : ℚ)
    (today d : Int) (e : String)
    (h : (tk.chain d).bind (fun oc => getattrSide oc side) = Except.error e) :
    buildPanel tk side lp today d =
      { title := expTitle today d ++ "\n(Error loading data)",
        state := PanelState.errorS, series := none, regions := [] } := by
  unfold buildPanel
  rw [h]

theorem buildPanel_of_ok (tk : Provider) (side : String) (lp : ℚ)
    (today d : Int) (rows : List ChainRow)
    (h : (tk.chain d).bind (fun oc => getattrSide oc side) = Except.ok rows) :
    buildPanel tk side lp today d =
      (if rows.isEmpty = false ∧ 0 < sumOI rows then
        { title := expTitle today d, state := PanelState.dataS,
          series := some rows,
          regions :=
            if side = "calls" then
              [{ lo := 0, hi := lp, role := ColorRole.itm },
               { lo := lp, hi := xlimUpper (rows.map ChainRow.strike), role := ColorRole.otm }]
            else
              [{ lo := 0, hi := lp, role := ColorRole.otm },
               { lo := lp, hi := xlimUpper (rows.map ChainRow.strike), role := ColorRole.itm }] }
      else
        { title := expTitle today d ++ "\n(No Data)",
          state := PanelState.emptyS, series := none, regions := [] }) := by
  unfold buildPanel
  rw [h]

theorem expectedState_ne_errorS (rows : List ChainRow) :
    expectedState rows ≠ PanelState.errorS := by
  unfold expectedState
  split
  · simp
  · simp

theorem buildPanel_state_of_ok (tk : Provider) (side : String) (lp : ℚ)
    (today d : Int) (rows : List ChainRow)
    (h : (tk.chain d).bind (fun oc => getattrSide oc side) = Except.ok rows) :
    (buildPanel tk side lp today d).state = expectedState rows := by
  rw [buildPanel_of_ok tk side lp today d rows h]
  unfold expectedState
  split
  · rfl
  · rfl

theorem buildPanel_state_of_bad_side (tk : Provider) (side : String) (lp : ℚ)
    (today d : Int) (hc : side ≠ "calls") (hp : side ≠ "puts") :
    (buildPanel tk side lp today d).state = PanelState.errorS := by
  cases hch : tk.chain d with
  | error e =>
      rw [buildPanel_of_error tk side lp today d e (by rw [hch]; rfl)]
  | ok oc =>
      have h : (tk.chain d).bind (fun x => getattrSide x side)
          = Except.error ("AttributeError: " ++ side) := by
        rw [hch]
        show getattrSide oc side = _
        unfold getattrSide
        rw [if_neg hc, if_neg hp]
      rw [buildPanel_of_error tk side lp today d _ h]

theorem legendScanAux_eq (i : ℕ) (ps : List Panel) :
    legendScanAux i ps =
      (match firstDataIdx ps with
       | none => ([], none)
       | some k => (["Open Interest", "Volume"], some (i + k))) := by
  induction ps generalizing i with
  | nil => rfl
  | cons p t ih =>
      by_cases hp : p.state = PanelState.dataS
      · simp [legendScanAux, firstDataIdx, hp]
      · have h1 : legendScanAux i (p :: t)
            = if p.state = PanelState.dataS then (["Open Interest", "Volume"], some i)
              else legendScanAux (i + 1) t := rfl
        have h2 : firstDataIdx (p :: t)
            = if p.state = PanelState.dataS then some 0
              else (firstDataIdx t).map (fun k => k + 1) := rfl
        rw [h1, h2, if_neg hp, if_neg hp, ih (i + 1)]
        cases firstDataIdx t with
        | none => rfl
        | some k =>
            show ((["Open Interest", "Volume"] : List String), some (i + 1 + k))
              = ((["Open Interest", "Volume"] : List String), some (i + (k + 1)))
            have h3 : i + 1 + k = i + (k + 1) := by omega
            rw [h3]

theorem legendScan_eq (ps : List Panel) :
    legendScan ps =
      (match firstDataIdx ps with
       | none => ([], none)
       | some k => (["Open Interest", "Volume"], some k)) := by
  unfold legendScan
  rw [legendScanAux_eq 0 ps]
  cases firstDataIdx ps with
  | none => rfl
  | some k =>
      show ((["Open Interest", "Volume"] : List String), some (0 + k))
        = ((["Open Interest", "Volume"] : List String), some k)
      rw [Nat.zero_add]

theorem getD_map_eq (f : Int → Panel) (es : List Int) (j : ℕ) (hj : j < es.length) :
    (es.map f).getD j defaultPanel = f (es.getD j 0) := by
  induction es generalizing j with
  | nil => simp at hj
  | cons a t ih =>
      cases j with
      | zero => rfl
      | succ k =>
          have hk : k < t.length := by simpa using hj
          simpa using ih k hk

theorem generate_plot_success (today : Int) (tk : Provider) (sym side : String)
    (hist : List ℚ) (es : List Int)
    (hh : tk.history = Except.ok hist) (hne : hist.isEmpty = false)
    (hopt : tk.options = Except.ok es) (hlen : 2 ≤ es.length) :
    generate_plot today tk sym side =
      Except.ok (some (makeChart tk sym side (hist.getLastD 0) today es), none) := by
  have hes : es.isEmpty = false := by
    cases es with
    | nil => simp at hlen
    | cons a t => rfl
  unfold generate_plot
  rw [hh, hopt]
  simp only [hne, hes, Bool.false_eq_true, if_false, subplots_flatten_ok es.length hlen]

theorem makeChart_panels (tk : Provider) (sym side : String) (lp : ℚ)
    (today : Int) (es : List Int) :
    (makeChart tk sym side lp today es).panels
      = es.map (buildPanel tk side lp today) := rfl

theorem makeChart_legend (tk : Provider) (sym side : String) (lp : ℚ)
    (today : Int) (es : List Int) :
    (makeChart tk sym side lp today es).legendLabels
        = (legendScan (es.map (buildPanel tk side lp today))).1 ∧
      (makeChart tk sym side lp today es).legendSource
        = (legendScan (es.map (buildPanel tk side lp today))).2 := by
  constructor
  · rfl
  · rfl

theorem generate_plot_image_inv (today : Int) (tk : Provider) (sym side : String)
    (hpan : panelsOf (generate_plot today tk sym side) ≠ []) :
    ∃ hist es, tk.history = Except.ok hist ∧ hist.isEmpty = false ∧
      tk.options = Except.ok es ∧ 2 ≤ es.length ∧
      generate_plot today tk sym side =
        Except.ok (some (makeChart tk sym side (hist.getLastD 0) today es), none) := by
  cases hh : tk.history with
  | error e =>
      exfalso
      apply hpan
      unfold generate_plot
      rw [hh]
      rfl
  | ok hist =>
      cases hhe : hist.isEmpty with
      | true =>
          exfalso
          apply hpan
          unfold generate_plot
          rw [hh]
          simp only [hhe, if_true]
          rfl
      | false =>
          cases hopt : tk.options with
          | error e =>
              exfalso
              apply hpan
              unfold generate_plot
              rw [hh, hopt]
              simp only [hhe, Bool.false_eq_true, if_false]
              rfl
          | ok es =>
              cases hese : es.isEmpty with
              | true =>
                  exfalso
                  apply hpan
                  unfold generate_plot
                  rw [hh, hopt]
                  simp only [hhe, hese, Bool.false_eq_true, if_false, if_true]
                  rfl
              | false =>
                  have hlen1 : 1 ≤ es.length := by
                    cases es with
                    | nil => simp at hese
                    | cons a t => simp
                  by_cases hlen : 2 ≤ es.length
                  · exact ⟨hist, es, rfl, hhe, rfl, hlen,
                      generate_plot_success today tk sym side hist es hh hhe hopt hlen⟩
                  · exfalso
                    apply hpan
                    have h1 : es.length = 1 := by omega
                    have hflat : subplots_flatten (n_rows es.length) (n_cols es.length)
                        = Except.error attrErrMsg := by
                      rw [h1]
                      rfl
                    unfold generate_plot
                    rw [hh, hopt]
                    simp only [hhe, hese, Bool.false_eq_true, if_false, hflat]
                    rfl

theorem str_append_assoc (a b c : String) : a ++ b ++ c = a ++ (b ++ c) := by
  cases a with
  | mk la =>
      cases b with
      | mk lb =>
          cases c with
          | mk lc =>
              show String.mk ((la ++ lb) ++ lc) = String.mk (la ++ (lb ++ lc))
              rw [List.append_assoc]

theorem generate_plot_shape (today : Int) (tk : Provider) (sym side : String) :
    (∃ msg, generate_plot today tk sym side = Except.ok (none, some msg)) ∨
    generate_plot today tk sym side = Except.error attrErrMsg ∨
    (∃ hist es, tk.history = Except.ok hist ∧ hist.isEmpty = false ∧
      tk.options = Except.ok es ∧ 2 ≤ es.length ∧
      generate_plot today tk sym side =
        Except.ok (some (makeChart tk sym side (hist.getLastD 0) today es), none)) := by
  cases hh : tk.history with
  | error e =>
      refine Or.inl ⟨fetchErrMsg e, ?_⟩
      unfold generate_plot
      rw [hh]
  | ok hist =>
      cases hhe : hist.isEmpty with
      | true =>
          refine Or.inl ⟨invalidTickerMsg sym, ?_⟩
          unfold generate_plot
          rw [hh]
          simp only [hhe, if_true]
      | false =>
          cases hopt : tk.options with
          | error e =>
              refine Or.inl ⟨fetchErrMsg e, ?_⟩
              unfold generate_plot
              rw [hh, hopt]
              simp only [hhe, Bool.false_eq_true, if_false]
          | ok es =>
              cases hese : es.isEmpty with
              | true =>
                  refine Or.inl ⟨noExpirationsMsg sym, ?_⟩
                  unfold generate_plot
                  rw [hh, hopt]
                  simp only [hhe, hese, Bool.false_eq_true, if_false, if_true]
              | false =>
                  have hlen1 : 1 ≤ es.length := by
                    cases es with
                    | nil => simp at hese
                    | cons a t => simp
                  by_cases hlen : 2 ≤ es.length
                  · exact Or.inr (Or.inr ⟨hist, es, rfl, hhe, rfl, hlen,
                      generate_plot_success today tk sym side hist es hh hhe hopt hlen⟩)
                  · refine Or.inr (Or.inl ?_)
                    have h1 : es.length = 1 := by omega
                    have hflat : subplots_flatten (n_rows es.length) (n_cols es.length)
                        = Except.error attrErrMsg := by
                      rw [h1]
                      rfl
                    unfold generate_plot
                    rw [hh, hopt]
                    simp only [hhe, hese, Bool.false_eq_true, if_false, hflat]

/-! Claim theorems. -/

/-- C1: the claim states that generate_plot terminates, for every
ticker and side and for any number of expiration dates including
exactly one, by returning a pair in which exactly one of the image
and the error message is non-null, and that no failure escapes it
as an uncaught fault.  The code violates this at exactly one
expiration date: with the default squeeze behaviour,
plt.subplots(1, 1) returns a bare axes object, so line 69
(axes.flatten()) raises an uncaught AttributeError before any panel
work happens.  This theorem evaluates the embedded code at such an
input (valid ticker with nonempty history, exactly one expiration
date, every provider call succeeding): the call ends in an uncaught
exception instead of returning a pair. -/
theorem single_expiration_uncaught_fault :
    generate_plot 0 tkOneDate ("AAPL") ("calls") = Except.error attrErrMsg ∧
    tkOneDate.history = Except.ok [100] ∧
    tkOneDate.options = Except.ok [30] ∧
    tkOneDate.chain 30 = Except.ok chainGoodA :=
  ⟨rfl, rfl, rfl, rfl⟩

theorem n_cols_eq_of (n k : ℕ) (hn : 1 ≤ n)
    (h1 : (k - 1) * (k - 1) < n) (h2 : n ≤ k * k) : n_cols n = k := by
  have ha1 := n_cols_pred_sq_lt n hn
  have ha2 := le_n_cols_sq n hn
  by_contra hne
  rcases Nat.lt_or_ge (n_cols n) k with h | h
  · have hle : n_cols n ≤ k - 1 := by omega
    have hmul : n_cols n * n_cols n ≤ (k - 1) * (k - 1) := Nat.mul_le_mul hle hle
    exact absurd (lt_of_le_of_lt (le_trans ha2 hmul) h1) (lt_irrefl n)
  · have hone : 1 ≤ n_cols n := n_cols_pos n hn
    have hne2 : k ≠ n_cols n := fun hx => hne hx.symm
    have hle : k ≤ n_cols n - 1 := by omega
    have hmul : k * k ≤ (n_cols n - 1) * (n_cols n - 1) := Nat.mul_le_mul hle hle
    exact absurd (lt_of_le_of_lt (le_trans h2 hmul) ha1) (lt_irrefl n)

theorem n_cols_one : n_cols 1 = 1 := n_cols_eq_of 1 1 (by decide) (by decide) (by decide)

theorem n_cols_four : n_cols 4 = 2 := n_cols_eq_of 4 2 (by decide) (by decide) (by decide)

theorem n_cols_five : n_cols 5 = 3 := n_cols_eq_of 5 3 (by decide) (by decide) (by decide)

theorem n_rows_one : n_rows 1 = 1 := by
  unfold n_rows
  rw [n_cols_one]

theorem n_rows_four : n_rows 4 = 2 := by
  unfold n_rows
  rw [n_cols_four]

theorem n_rows_five : n_rows 5 = 2 := by
  unfold n_rows
  rw [n_cols_five]

/-- C4: for every N ≥ 1 the grid dimensions of lines 64 to 66
satisfy cols = ceil(sqrt N), characterized as the unique k with
(k - 1) * (k - 1) < N ≤ k * k, and rows = ceil(N / cols),
characterized as the unique r with (r - 1) * cols < N ≤ r * cols,
hence rows * cols ≥ N; concretely N = 1 gives (1, 1), N = 4 gives
(2, 2) and N = 5 gives rows = 2, cols = 3. -/
theorem grid_dimensions (n : ℕ) (hn : 1 ≤ n) :
    n ≤ n_rows n * n_cols n ∧
    n ≤ n_cols n * n_cols n ∧ (n_cols n - 1) * (n_cols n - 1) < n ∧
    (n_rows n - 1) * n_cols n < n ∧
    n_cols 1 = 1 ∧ n_rows 1 = 1 ∧ n_cols 4 = 2 ∧ n_rows 4 = 2 ∧
    n_cols 5 = 3 ∧ n_rows 5 = 2 :=
  ⟨le_n_rows_mul_n_cols n hn, le_n_cols_sq n hn, n_cols_pred_sq_lt n hn,
   n_rows_pred_mul_lt n hn, n_cols_one, n_rows_one, n_cols_four, n_rows_four,
   n_cols_five, n_rows_five⟩

/-- Witness for C4 at the concrete input N = 5. -/
theorem grid_dimensions_witness :
    1 ≤ 5 ∧
    (5 ≤ n_rows 5 * n_cols 5 ∧
     5 ≤ n_cols 5 * n_cols 5 ∧ (n_cols 5 - 1) * (n_cols 5 - 1) < 5 ∧
     (n_rows 5 - 1) * n_cols 5 < 5 ∧
     n_cols 1 = 1 ∧ n_rows 1 = 1 ∧ n_cols 4 = 2 ∧ n_rows 4 = 2 ∧
     n_cols 5 = 3 ∧ n_rows 5 = 2) :=
  ⟨by decide, grid_dimensions 5 (by decide)⟩

/-- C8: for every ticker whose trading history is empty,
generate_plot returns a null image together with a message
containing the text Invalid or unknown ticker.  The expiration and
chain fields of the provider are universally quantified and never
consulted, so the rejection takes place before any expiration or
chain data is requested. -/
theorem invalid_ticker_rejected (today : Int) (tk : Provider) (sym side : String)
    (hh : tk.history = Except.ok []) :
    generate_plot today tk sym side = Except.ok (none, some (invalidTickerMsg sym)) ∧
    ∃ a b, invalidTickerMsg sym = a ++ "Invalid or unknown ticker" ++ b := by
  constructor
  · unfold generate_plot
    rw [hh]
    rfl
  · refine ⟨"", ": \x27" ++ sym ++ "\x27", ?_⟩
    rw [str_empty_append, str_append_assoc]
    show ("Invalid or unknown ticker" ++ ": \x27") ++ sym ++ "\x27"
        = "Invalid or unknown ticker" ++ (": \x27" ++ sym ++ "\x27")
    rw [str_append_assoc, str_append_assoc, str_append_assoc]

/-- Witness for C8: a concrete provider with empty history; the
provider even has expiration dates and good chains, which are
ignored. -/
theorem invalid_ticker_rejected_witness :
    generate_plot 0 tkEmptyHist ("ZZZZ") ("calls")
        = Except.ok (none, some (invalidTickerMsg ("ZZZZ"))) ∧
    ∃ a b, invalidTickerMsg ("ZZZZ") = a ++ "Invalid or unknown ticker" ++ b :=
  invalid_ticker_rejected 0 tkEmptyHist ("ZZZZ") ("calls") rfl

/-- C5: two calls of the memoized computation with the same
(ticker, side) key, the second within the TTL window of the first
(t1 ≤ t2 < t1 + ttl), starting from a cache state holding no fresh
entry for the key: the two calls return the identical result (the
value generate_plot computes at the first call), the provider fetch
sequence runs exactly once (the computed flag is true for the first
call and false for the second), and the second call is served from
the cache without recomputation. -/
theorem cache_idempotence (ttl t1 t2 : ℕ) (st0 : CacheState PlotResult)
    (today : Int) (tk : Provider) (sym side : String)
    (habs : lookupFresh ttl t1 st0.entries (sym, side) = none)
    (h12 : t1 ≤ t2) (hwin : t2 < t1 + ttl) :
    (memoized_generate_plot ttl t2
        (memoized_generate_plot ttl t1 st0 today tk sym side).2.1 today tk sym side).1
      = (memoized_generate_plot ttl t1 st0 today tk sym side).1 ∧
    (memoized_generate_plot ttl t1 st0 today tk sym side).2.2 = true ∧
    (memoized_generate_plot ttl t2
        (memoized_generate_plot ttl t1 st0 today tk sym side).2.1 today tk sym side).2.2
      = false ∧
    (memoized_generate_plot ttl t1 st0 today tk sym side).1
      = generate_plot today tk sym side := by
  have h1 : memoized_generate_plot ttl t1 st0 today tk sym side
      = (generate_plot today tk sym side,
         { entries := ((sym, side), generate_plot today tk sym side, t1) :: st0.entries },
         true) := by
    unfold memoized_generate_plot get_or_compute
    rw [habs]
  rw [h1]
  have h2 : memoized_generate_plot ttl t2
      ({ entries := ((sym, side), generate_plot today tk sym side, t1) :: st0.entries })
      today tk sym side
      = (generate_plot today tk sym side,
         { entries := ((sym, side), generate_plot today tk sym side, t1) :: st0.entries },
         false) := by
    unfold memoized_generate_plot get_or_compute
    have hl : lookupFresh ttl t2
        (((sym, side), generate_plot today tk sym side, t1) :: st0.entries) (sym, side)
        = some (generate_plot today tk sym side) := by
      unfold lookupFresh
      rw [if_pos rfl, if_pos hwin]
    rw [hl]
  rw [h2]
  exact ⟨rfl, rfl, rfl, rfl⟩

/-- Witness for C5: empty cache, first call at time 0, second at
time 299, TTL 300. -/
theorem cache_idempotence_witness :
    (memoized_generate_plot CACHE_DEFAULT_TIMEOUT 299
        (memoized_generate_plot CACHE_DEFAULT_TIMEOUT 0 stEmptyCache 0 tkGood
          ("AAPL") ("calls")).2.1 0 tkGood ("AAPL") ("calls")).1
      = (memoized_generate_plot CACHE_DEFAULT_TIMEOUT 0 stEmptyCache 0 tkGood
          ("AAPL") ("calls")).1 ∧
    (memoized_generate_plot CACHE_DEFAULT_TIMEOUT 0 stEmptyCache 0 tkGood
        ("AAPL") ("calls")).2.2 = true ∧
    (memoized_generate_plot CACHE_DEFAULT_TIMEOUT 299
        (memoized_generate_plot CACHE_DEFAULT_TIMEOUT 0 stEmptyCache 0 tkGood
          ("AAPL") ("calls")).2.1 0 tkGood ("AAPL") ("calls")).2.2 = false ∧
    (memoized_generate_plot CACHE_DEFAULT_TIMEOUT 0 stEmptyCache 0 tkGood
        ("AAPL") ("calls")).1 = generate_plot 0 tkGood ("AAPL") ("calls") :=
  cache_idempotence CACHE_DEFAULT_TIMEOUT 0 299 stEmptyCache 0 tkGood
    ("AAPL") ("calls") rfl (by decide) (by decide)

/-- C9: a cached error result is returned on a repeat call within
the TTL window exactly like a cached success: when the stored entry
for the key is fresh, its value is returned without recomputation
even when that value is an error message (the provider is
universally quantified, so this holds even when a recomputation
would now succeed). -/
theorem cached_error_returned (ttl now : ℕ) (st : CacheState PlotResult)
    (today : Int) (tk : Provider) (sym side msg : String)
    (hfresh : lookupFresh ttl now st.entries (sym, side)
        = some (Except.ok (none, some msg))) :
    memoized_generate_plot ttl now st today tk sym side
      = (Except.ok (none, some msg), st, false) := by
  unfold memoized_generate_plot get_or_compute
  rw [hfresh]

/-- Witness for C9: a cache holding a fresh error entry for the key
(MSFT, calls), queried at time 200 with TTL 300; the provider given
to the call would succeed, yet the stored error is returned and no
recomputation happens. -/
theorem cached_error_returned_witness :
    memoized_generate_plot CACHE_DEFAULT_TIMEOUT 200 stWithError 0 tkGood
        ("MSFT") ("calls")
      = (Except.ok (none, some (fetchErrMsg ("boom"))), stWithError, false) :=
  cached_error_returned CACHE_DEFAULT_TIMEOUT 200 stWithError 0 tkGood
    ("MSFT") ("calls") (fetchErrMsg ("boom")) rfl

/-- C10: for every valid ticker (nonempty history) with at least
two expiration dates and any option side string other than calls
and puts, generate_plot still returns an encoded image, not an
error message, and every panel of the chart is in Error state: the
per-panel getattr of the side on the option chain fails and is
caught by the per-panel handler. -/
theorem invalid_side_all_panels_error (today : Int) (tk : Provider)
    (sym side : String) (hist : List ℚ) (es : List Int)
    (hh : tk.history = Except.ok hist) (hne : hist.isEmpty = false)
    (hopt : tk.options = Except.ok es) (hlen : 2 ≤ es.length)
    (hc : side ≠ "calls") (hp : side ≠ "puts") :
    isImageResult (generate_plot today tk sym side) = true ∧
    (panelsOf (generate_plot today tk sym side)).length = es.length ∧
    ∀ j, j < (panelsOf (generate_plot today tk sym side)).length →
      (panelAt (generate_plot today tk sym side) j).state = PanelState.errorS := by
  have hres := generate_plot_success today tk sym side hist es hh hne hopt hlen
  rw [hres]
  refine ⟨rfl, ?_, ?_⟩
  · show (es.map (buildPanel tk side (hist.getLastD 0) today)).length = es.length
    rw [List.length_map]
  · intro j hj
    have hjlen : j < es.length := by
      have : (es.map (buildPanel tk side (hist.getLastD 0) today)).length = es.length :=
        List.length_map es _
      exact this ▸ hj
    show ((es.map (buildPanel tk side (hist.getLastD 0) today)).getD j defaultPanel).state
        = PanelState.errorS
    rw [getD_map_eq _ es j hjlen]
    exact buildPanel_state_of_bad_side tk side _ today _ hc hp

/-- Witness for C10: a valid two-expiration ticker queried with the
side string bananas. -/
theorem invalid_side_all_panels_error_witness :
    isImageResult (generate_plot 0 tkGood ("X") ("bananas")) = true ∧
    (panelsOf (generate_plot 0 tkGood ("X") ("bananas"))).length
        = ([30, 60] : List Int).length ∧
    ∀ j, j < (panelsOf (generate_plot 0 tkGood ("X") ("bananas"))).length →
      (panelAt (generate_plot 0 tkGood ("X") ("bananas")) j).state
        = PanelState.errorS :=
  invalid_side_all_panels_error 0 tkGood ("X") ("bananas") [7] [30, 60]
    rfl rfl rfl (by decide) (by decide) (by decide)

/-- C7: the composite chart has at most one legend, whose entries
Open Interest and Volume come from the first panel in provider
order whose state is Data (the legend source index is exactly the
first Data index); later Data panels contribute no additional
entries (the label list is always either empty or exactly the two
labels), and a chart in which every panel is Empty or Error has no
legend at all (no Data index, hence empty label list).  This holds
for every input, with no hypothesis. -/
theorem legend_invariant (today : Int) (tk : Provider) (sym side : String) :
    legendSourceOf (generate_plot today tk sym side)
      = firstDataIdx (panelsOf (generate_plot today tk sym side)) ∧
    legendLabelsOf (generate_plot today tk sym side)
      = (match firstDataIdx (panelsOf (generate_plot today tk sym side)) with
         | none => []
         | some _ => ["Open Interest", "Volume"]) ∧
    (legendLabelsOf (generate_plot today tk sym side)).length ≤ 2 := by
  rcases generate_plot_shape today tk sym side with
    ⟨msg, hres⟩ | hres | ⟨hist, es, hh, hne, hopt, hlen, hres⟩
  · rw [hres]
    refine ⟨rfl, rfl, ?_⟩
    show ([] : List String).length ≤ 2
    decide
  · rw [hres]
    refine ⟨rfl, rfl, ?_⟩
    show ([] : List String).length ≤ 2
    decide
  · rw [hres]
    have hps : panelsOf (Except.ok (some (makeChart tk sym side
        (hist.getLastD 0) today es), none) : PlotResult)
        = es.map (buildPanel tk side (hist.getLastD 0) today) := rfl
    rw [hps]
    have hsrc : legendSourceOf (Except.ok (some (makeChart tk sym side
        (hist.getLastD 0) today es), none) : PlotResult)
        = (legendScan (es.map (buildPanel tk side (hist.getLastD 0) today))).2 := rfl
    have hlab : legendLabelsOf (Except.ok (some (makeChart tk sym side
        (hist.getLastD 0) today es), none) : PlotResult)
        = (legendScan (es.map (buildPanel tk side (hist.getLastD 0) today))).1 := rfl
    rw [hsrc, hlab, legendScan_eq]
    cases firstDataIdx (es.map (buildPanel tk side (hist.getLastD 0) today)) with
    | none =>
        refine ⟨rfl, rfl, ?_⟩
        show ([] : List String).length ≤ 2
        decide
    | some k =>
        refine ⟨rfl, rfl, ?_⟩
        show (["Open Interest", "Volume"] : List String).length ≤ 2
        decide

theorem except_bind_ok {α β γ : Type} (x : Except α β) (f : β → Except α γ) (c : γ)
    (h : x.bind f = Except.ok c) : ∃ b, x = Except.ok b ∧ f b = Except.ok c := by
  cases x with
  | error e => exact absurd h (by simp [Except.bind])
  | ok b => exact ⟨b, rfl, h⟩

theorem panelAt_of_success (tk : Provider) (sym side : String) (lp : ℚ)
    (today : Int) (es : List Int) (r : PlotResult) (j : ℕ)
    (hr : r = Except.ok (some (makeChart tk sym side lp today es), none))
    (hj : j < es.length) :
    panelAt r j = buildPanel tk side lp today (es.getD j 0) := by
  rw [hr]
  show (es.map (buildPanel tk side lp today)).getD j defaultPanel = _
  exact getD_map_eq _ es j hj

theorem buildPanel_data_parts (tk : Provider) (side : String) (lp : ℚ)
    (today d : Int) (rows : List ChainRow)
    (h : (tk.chain d).bind (fun oc => getattrSide oc side) = Except.ok rows)
    (hcond : rows.isEmpty = false ∧ 0 < sumOI rows) :
    (buildPanel tk side lp today d).state = PanelState.dataS ∧
    (buildPanel tk side lp today d).series = some rows ∧
    (buildPanel tk side lp today d).regions =
      (if side = "calls" then
        [{ lo := 0, hi := lp, role := ColorRole.itm },
         { lo := lp, hi := xlimUpper (rows.map ChainRow.strike), role := ColorRole.otm }]
      else
        [{ lo := 0, hi := lp, role := ColorRole.otm },
         { lo := lp, hi := xlimUpper (rows.map ChainRow.strike), role := ColorRole.itm }]) := by
  rw [buildPanel_of_ok tk side lp today d rows h, if_pos hcond]
  exact ⟨rfl, rfl, rfl⟩

theorem tkUnsorted_res : generate_plot 0 tkUnsorted ("X") ("calls")
    = Except.ok (some (makeChart tkUnsorted ("X") ("calls") 7 0 [30, 60]), none) :=
  generate_plot_success 0 tkUnsorted ("X") ("calls") [7] [30, 60] rfl rfl rfl (by decide)

theorem tkUnsorted_cond : chainUnsorted.calls.isEmpty = false ∧ 0 < sumOI chainUnsorted.calls := by
  constructor
  · rfl
  · norm_num [sumOI, chainUnsorted]

theorem tkUnsorted_panel0 : panelAt (generate_plot 0 tkUnsorted ("X") ("calls")) 0
    = buildPanel tkUnsorted ("calls") 7 0 30 :=
  panelAt_of_success tkUnsorted ("X") ("calls") 7 0 [30, 60] _ 0 tkUnsorted_res (by decide)

/-- C6 counterexample: the claim says the panel builder sorts the
chain rows by strike before plotting; the code (line 85) plots the
rows exactly as the provider returned them.  With a provider whose
rows come back out of order (strike 10 before strike 5), the Data
panel series equals the unsorted provider rows and differs from
their strike-sorted rearrangement. -/
theorem series_not_sorted_counterexample :
    (panelAt (generate_plot 0 tkUnsorted ("X") ("calls")) 0).state = PanelState.dataS ∧
    (panelAt (generate_plot 0 tkUnsorted ("X") ("calls")) 0).series
        = some chainUnsorted.calls ∧
    sortByStrike chainUnsorted.calls
        = [{ strike := 5, openInterest := 1, volume := 0 },
           { strike := 10, openInterest := 1, volume := 0 }] ∧
    (panelAt (generate_plot 0 tkUnsorted ("X") ("calls")) 0).series
        ≠ some (sortByStrike chainUnsorted.calls) := by
  have hparts := buildPanel_data_parts tkUnsorted ("calls") 7 0 30
    chainUnsorted.calls rfl tkUnsorted_cond
  have hsort : sortByStrike chainUnsorted.calls
      = [{ strike := 5, openInterest := 1, volume := 0 },
         { strike := 10, openInterest := 1, volume := 0 }] := by
    show insertByStrike { strike := 10, openInterest := 1, volume := 0 }
        (insertByStrike { strike := 5, openInterest := 1, volume := 0 } []) = _
    rw [insertByStrike, insertByStrike, if_neg (by norm_num)]
    rfl
  rw [tkUnsorted_panel0]
  refine ⟨hparts.1, hparts.2.1, hsort, ?_⟩
  rw [hparts.2.1, hsort]
  intro hcontra
  have h5 : chainUnsorted.calls
      = [{ strike := 5, openInterest := 1, volume := 0 },
         { strike := 10, openInterest := 1, volume := 0 }] := Option.some.inj hcontra
  have h10 : chainUnsorted.calls
      = [{ strike := 10, openInterest := 1, volume := 0 },
         { strike := 5, openInterest := 1, volume := 0 }] := rfl
  rw [h10] at h5
  have := List.head_eq_of_cons_eq h5
  have h510 : (5 : ℚ) = 10 := congrArg ChainRow.strike this.symm
  norm_num at h510

/-- C6 (amended): for every Data-state panel, the plotted series
are the chain rows exactly as the provider returned them for that
expiration date, in provider order; the builder performs no sorting
by strike (the original claim, that the rows are sorted before
plotting, is refuted by the counterexample). -/
theorem series_follow_provider_order (today : Int) (tk : Provider)
    (sym side : String) (es : List Int)
    (hopt : tk.options = Except.ok es)
    (j : ℕ) (hj : j < (panelsOf (generate_plot today tk sym side)).length)
    (hdata : (panelAt (generate_plot today tk sym side) j).state = PanelState.dataS) :
    ∃ oc rows, j < es.length ∧ tk.chain (es.getD j 0) = Except.ok oc ∧
      getattrSide oc side = Except.ok rows ∧
      (panelAt (generate_plot today tk sym side) j).series = some rows := by
  have hpan : panelsOf (generate_plot today tk sym side) ≠ [] := by
    intro h
    rw [h] at hj
    simp at hj
  obtain ⟨hist, es2, hh, hne, hopt2, hlen, hres⟩ :=
    generate_plot_image_inv today tk sym side hpan
  rw [hopt] at hopt2
  injection hopt2 with hes
  subst hes
  have hjlen : j < es.length := by
    rw [hres] at hj
    have hlm : (panelsOf (Except.ok (some (makeChart tk sym side
        (hist.getLastD 0) today es), none) : PlotResult)).length = es.length := by
      show (es.map (buildPanel tk side (hist.getLastD 0) today)).length = es.length
      rw [List.length_map]
    rw [hlm] at hj
    exact hj
  have hbp : panelAt (generate_plot today tk sym side) j
      = buildPanel tk side (hist.getLastD 0) today (es.getD j 0) :=
    panelAt_of_success tk sym side (hist.getLastD 0) today es _ j hres hjlen
  rw [hbp] at hdata ⊢
  cases hch : (tk.chain (es.getD j 0)).bind (fun oc => getattrSide oc side) with
  | error e =>
      rw [buildPanel_of_error tk side _ today _ e hch] at hdata
      exact absurd hdata (by simp)
  | ok rows =>
      obtain ⟨oc, hoc, hget⟩ := except_bind_ok _ _ _ hch
      by_cases hcond : rows.isEmpty = false ∧ 0 < sumOI rows
      · have hparts := buildPanel_data_parts tk side (hist.getLastD 0) today
          (es.getD j 0) rows hch hcond
        exact ⟨oc, rows, hjlen, hoc, hget, hparts.2.1⟩
      · rw [buildPanel_of_ok tk side _ today _ rows hch, if_neg hcond] at hdata
        exact absurd hdata (by simp)

/-- Witness for C6 (amended) at a concrete provider whose rows are
in order: the Data panel series are exactly the provider rows. -/
theorem series_follow_provider_order_witness :
    ∃ oc rows, 0 < ([30, 60] : List Int).length ∧
      tkGood.chain (([30, 60] : List Int).getD 0 0) = Except.ok oc ∧
      getattrSide oc ("calls") = Except.ok rows ∧
      (panelAt (generate_plot 0 tkGood ("X") ("calls")) 0).series = some rows :=
  series_follow_provider_order 0 tkGood ("X") ("calls") [30, 60] rfl 0
    (by rw [generate_plot_success 0 tkGood ("X") ("calls") [7] [30, 60] rfl rfl rfl
          (by decide)]
        show 0 < (([30, 60] : List Int).map (buildPanel tkGood ("calls") 7 0)).length
        decide)
    (by rw [panelAt_of_success tkGood ("X") ("calls") 7 0 [30, 60] _ 0
          (generate_plot_success 0 tkGood ("X") ("calls") [7] [30, 60] rfl rfl rfl
            (by decide)) (by decide)]
        exact (buildPanel_data_parts tkGood ("calls") 7 0 30 chainGoodA.calls rfl
          ⟨rfl, by norm_num [sumOI, chainGoodA]⟩).1)

theorem xlimUpper_eq (s : List ℚ) : xlimUpper s = maxStrike s := rfl

theorem tkHighPrice_res : generate_plot 0 tkHighPrice ("X") ("calls")
    = Except.ok (some (makeChart tkHighPrice ("X") ("calls") 10 0 [30, 60]), none) :=
  generate_plot_success 0 tkHighPrice ("X") ("calls") [10] [30, 60] rfl rfl rfl (by decide)

theorem tkHighPrice_panel0 : panelAt (generate_plot 0 tkHighPrice ("X") ("calls")) 0
    = buildPanel tkHighPrice ("calls") 10 0 30 :=
  panelAt_of_success tkHighPrice ("X") ("calls") 10 0 [30, 60] _ 0 tkHighPrice_res (by decide)

theorem tkHighPrice_parts :
    (buildPanel tkHighPrice ("calls") 10 0 30).state = PanelState.dataS ∧
    (buildPanel tkHighPrice ("calls") 10 0 30).series
        = some [{ strike := 5, openInterest := 1, volume := 1 }] ∧
    (buildPanel tkHighPrice ("calls") 10 0 30).regions =
      (if ("calls" : String) = "calls" then
        [{ lo := 0, hi := 10, role := ColorRole.itm },
         { lo := 10, hi := xlimUpper ([{ strike := 5, openInterest := 1, volume := 1 }].map ChainRow.strike),
           role := ColorRole.otm }]
      else
        [{ lo := 0, hi := 10, role := ColorRole.otm },
         { lo := 10, hi := xlimUpper ([{ strike := 5, openInterest := 1, volume := 1 }].map ChainRow.strike),
           role := ColorRole.itm }]) :=
  buildPanel_data_parts tkHighPrice ("calls") 10 0 30
    [{ strike := 5, openInterest := 1, volume := 1 }] rfl ⟨rfl, by norm_num [sumOI]⟩

/-- C3 counterexample: the claim asserts that for every Data panel
the two highlight regions partition the interval from 0 to the
largest strike with no gap and no overlap.  With last price 10 and
a single strike 5 the panel is in Data state, the spans drawn are
from 0 to 10 (itm colored) and from 10 to the axis upper bound
(otm colored), and their union is not the interval from 0 to the
largest strike: the point 10 is covered although it lies outside
that interval, so the regions fail to partition it. -/
theorem moneyness_partition_counterexample :
    (panelAt (generate_plot 0 tkHighPrice ("X") ("calls")) 0).state = PanelState.dataS ∧
    (panelAt (generate_plot 0 tkHighPrice ("X") ("calls")) 0).regions
        = [{ lo := 0, hi := 10, role := ColorRole.itm },
           { lo := 10, hi := 5, role := ColorRole.otm }] ∧
    maxStrike (([{ strike := 5, openInterest := 1, volume := 1 }] : List ChainRow).map
        ChainRow.strike) = 5 ∧
    Set.Icc (0 : ℚ) 10 ∪ Set.Icc (10 : ℚ) 5 ≠ Set.Icc (0 : ℚ) 5 := by
  have hmax : maxStrike (([{ strike := 5, openInterest := 1, volume := 1 }] : List ChainRow).map
      ChainRow.strike) = 5 := by
    show max (5 : ℚ) 0 = 5
    norm_num
  refine ⟨?_, ?_, hmax, ?_⟩
  · rw [tkHighPrice_panel0]
    exact tkHighPrice_parts.1
  · rw [tkHighPrice_panel0]
    rw [tkHighPrice_parts.2.2, if_pos rfl, xlimUpper_eq, hmax]
  · intro h
    have h10 : (10 : ℚ) ∈ Set.Icc (0 : ℚ) 5 := by
      rw [← h]
      exact Set.mem_union_left _ (Set.mem_Icc.mpr ⟨by norm_num, le_refl 10⟩)
    have := (Set.mem_Icc.mp h10).2
    norm_num at this

/-- C3 (amended): for every Data panel with last price P, when the
side is calls the span over the interval from 0 to P is drawn in
the in-the-money color and the span from P to the axis upper bound
(the largest plotted strike in this model) in the out-of-the-money
color; for any other side (in particular puts) the two color roles
are exactly inverted; and provided 0 ≤ P and P is at most the
largest strike, the two regions cover the interval from 0 to the
largest strike with no gap and with no interior overlap (they meet
only at the shared boundary point P).  The proviso on P is forced
by the counterexample: when the last price exceeds the largest
strike the regions fail to partition that interval. -/
theorem moneyness_regions (today : Int) (tk : Provider) (sym side : String)
    (hist : List ℚ) (P : ℚ)
    (hh : tk.history = Except.ok hist) (hP : hist.getLastD 0 = P)
    (j : ℕ) (hj : j < (panelsOf (generate_plot today tk sym side)).length)
    (hdata : (panelAt (generate_plot today tk sym side) j).state = PanelState.dataS) :
    ∃ rows, (panelAt (generate_plot today tk sym side) j).series = some rows ∧
      (side = "calls" →
        (panelAt (generate_plot today tk sym side) j).regions =
          [{ lo := 0, hi := P, role := ColorRole.itm },
           { lo := P, hi := maxStrike (rows.map ChainRow.strike), role := ColorRole.otm }]) ∧
      (side ≠ "calls" →
        (panelAt (generate_plot today tk sym side) j).regions =
          [{ lo := 0, hi := P, role := ColorRole.otm },
           { lo := P, hi := maxStrike (rows.map ChainRow.strike), role := ColorRole.itm }]) ∧
      (0 ≤ P → P ≤ maxStrike (rows.map ChainRow.strike) →
        Set.Icc (0 : ℚ) P ∪ Set.Icc P (maxStrike (rows.map ChainRow.strike))
            = Set.Icc 0 (maxStrike (rows.map ChainRow.strike)) ∧
        Set.Ioo (0 : ℚ) P ∩ Set.Ioo P (maxStrike (rows.map ChainRow.strike))
            = (∅ : Set ℚ)) := by
  have hpan : panelsOf (generate_plot today tk sym side) ≠ [] := by
    intro h
    rw [h] at hj
    simp at hj
  obtain ⟨hist2, es, hh2, hne, hopt, hlen, hres⟩ :=
    generate_plot_image_inv today tk sym side hpan
  rw [hh] at hh2
  injection hh2 with hhist
  subst hhist
  have hjlen : j < es.length := by
    rw [hres] at hj
    have hlm : (panelsOf (Except.ok (some (makeChart tk sym side
        (hist.getLastD 0) today es), none) : PlotResult)).length = es.length := by
      show (es.map (buildPanel tk side (hist.getLastD 0) today)).length = es.length
      rw [List.length_map]
    rw [hlm] at hj
    exact hj
  have hbp : panelAt (generate_plot today tk sym side) j
      = buildPanel tk side (hist.getLastD 0) today (es.getD j 0) :=
    panelAt_of_success tk sym side (hist.getLastD 0) today es _ j hres hjlen
  rw [hP] at hbp
  rw [hbp] at hdata ⊢
  cases hch : (tk.chain (es.getD j 0)).bind (fun oc => getattrSide oc side) with
  | error e =>
      rw [buildPanel_of_error tk side _ today _ e hch] at hdata
      exact absurd hdata (by simp)
  | ok rows =>
      by_cases hcond : rows.isEmpty = false ∧ 0 < sumOI rows
      · have hparts := buildPanel_data_parts tk side P today (es.getD j 0) rows hch hcond
        refine ⟨rows, hparts.2.1, ?_, ?_, ?_⟩
        · intro hc
          rw [hparts.2.2, if_pos hc, xlimUpper_eq]
        · intro hc
          rw [hparts.2.2, if_neg hc, xlimUpper_eq]
        · intro h0 hPM
          constructor
          · exact Set.Icc_union_Icc_eq_Icc h0 hPM
          · apply Set.eq_empty_iff_forall_not_mem.mpr
            intro x hx
            have hx1 : x < P := (Set.mem_Ioo.mp hx.1).2
            have hx2 : P < x := (Set.mem_Ioo.mp hx.2).1
            exact absurd hx2 (lt_asymm hx1)
      · rw [buildPanel_of_ok tk side _ today _ rows hch, if_neg hcond] at hdata
        exact absurd hdata (by simp)

/-- Witness for C3 (amended) at a concrete calls panel with last
price 7 and strikes 5 and 10. -/
theorem moneyness_regions_witness :
    ∃ rows, (panelAt (generate_plot 0 tkGood ("X") ("calls")) 0).series = some rows ∧
      (("calls" : String) = "calls" →
        (panelAt (generate_plot 0 tkGood ("X") ("calls")) 0).regions =
          [{ lo := 0, hi := 7, role := ColorRole.itm },
           { lo := 7, hi := maxStrike (rows.map ChainRow.strike), role := ColorRole.otm }]) ∧
      (("calls" : String) ≠ "calls" →
        (panelAt (generate_plot 0 tkGood ("X") ("calls")) 0).regions =
          [{ lo := 0, hi := 7, role := ColorRole.otm },
           { lo := 7, hi := maxStrike (rows.map ChainRow.strike), role := ColorRole.itm }]) ∧
      ((0 : ℚ) ≤ 7 → (7 : ℚ) ≤ maxStrike (rows.map ChainRow.strike) →
        Set.Icc (0 : ℚ) 7 ∪ Set.Icc (7 : ℚ) (maxStrike (rows.map ChainRow.strike))
            = Set.Icc 0 (maxStrike (rows.map ChainRow.strike)) ∧
        Set.Ioo (0 : ℚ) 7 ∩ Set.Ioo (7 : ℚ) (maxStrike (rows.map ChainRow.strike))
            = (∅ : Set ℚ)) :=
  moneyness_regions 0 tkGood ("X") ("calls") [7] 7 rfl rfl 0
    (by rw [generate_plot_success 0 tkGood ("X") ("calls") [7] [30, 60] rfl rfl rfl
          (by decide)]
        show 0 < (([30, 60] : List Int).map (buildPanel tkGood ("calls") 7 0)).length
        decide)
    (by rw [panelAt_of_success tkGood ("X") ("calls") 7 0 [30, 60] _ 0
          (generate_plot_success 0 tkGood ("X") ("calls") [7] [30, 60] rfl rfl rfl
            (by decide)) (by decide)]
        exact (buildPanel_data_parts tkGood ("calls") 7 0 30 chainGoodA.calls rfl
          ⟨rfl, by norm_num [sumOI, chainGoodA]⟩).1)

/-- C2 counterexample: the claim quantifies over every input with N
expiration dates in which exactly one chain fetch fails, including
N = 1.  For a valid ticker with exactly one expiration date whose
single chain fetch would fail, the call does not return an encoded
image with one Error panel: it never reaches the fetch at all,
crashing on line 69 with an uncaught AttributeError (the same
squeeze defect recorded for C1). -/
theorem isolated_failure_single_expiration_counterexample :
    tkOneDateFail.options = Except.ok [30] ∧
    tkOneDateFail.chain 30 = Except.error ("boom") ∧
    generate_plot 0 tkOneDateFail ("X") ("calls") = Except.error attrErrMsg ∧
    isImageResult (generate_plot 0 tkOneDateFail ("X") ("calls")) = false :=
  ⟨rfl, rfl, rfl, rfl⟩

/-- C2 (amended): for every input with N ≥ 2 expiration dates (the
restriction to N ≥ 2 is forced by the counterexample: at N = 1 the
call crashes before any fetch) in which exactly one per-expiration
chain fetch fails, the call still returns an encoded image rather
than an error message, the chart has one panel per expiration, a
panel is in Error state exactly when it is the failing one, the
failing panel title contains the text Error loading data, and every
other panel is in the Data or Empty state its own chain rows
dictate. -/
theorem isolated_fetch_failure_containment (today : Int) (tk : Provider)
    (sym side : String) (hist : List ℚ) (es : List Int) (i0 : ℕ)
    (hh : tk.history = Except.ok hist) (hne : hist.isEmpty = false)
    (hopt : tk.options = Except.ok es) (hlen : 2 ≤ es.length)
    (hside : side = "calls" ∨ side = "puts")
    (hi0 : i0 < es.length)
    (hfail : ∃ e, tk.chain (es.getD i0 0) = Except.error e)
    (hok : ∀ j, j < es.length → j ≠ i0 →
      ∃ oc, tk.chain (es.getD j 0) = Except.ok oc) :
    isImageResult (generate_plot today tk sym side) = true ∧
    (panelsOf (generate_plot today tk sym side)).length = es.length ∧
    (∀ j, j < es.length →
      ((panelAt (generate_plot today tk sym side) j).state = PanelState.errorS
        ↔ j = i0)) ∧
    (∃ a b, (panelAt (generate_plot today tk sym side) i0).title
        = a ++ "(Error loading data)" ++ b) ∧
    (∀ j, j < es.length → j ≠ i0 → ∀ oc rows,
      tk.chain (es.getD j 0) = Except.ok oc →
      getattrSide oc side = Except.ok rows →
      (panelAt (generate_plot today tk sym side) j).state = expectedState rows) := by
  have hres := generate_plot_success today tk sym side hist es hh hne hopt hlen
  rw [hres]
  obtain ⟨e0, he0⟩ := hfail
  have hchain0 : (tk.chain (es.getD i0 0)).bind (fun x => getattrSide x side)
      = Except.error e0 := by
    rw [he0]
    rfl
  have hbp : ∀ j, j < es.length →
      panelAt (Except.ok (some (makeChart tk sym side (hist.getLastD 0) today es),
          none) : PlotResult) j
        = buildPanel tk side (hist.getLastD 0) today (es.getD j 0) := fun j hj =>
    panelAt_of_success tk sym side (hist.getLastD 0) today es _ j rfl hj
  refine ⟨rfl, ?_, ?_, ?_, ?_⟩
  · show (es.map (buildPanel tk side (hist.getLastD 0) today)).length = es.length
    rw [List.length_map]
  · intro j hj
    rw [hbp j hj]
    constructor
    · intro hstate
      by_contra hne2
      obtain ⟨oc, hoc⟩ := hok j hj hne2
      have hget : ∃ rows, getattrSide oc side = Except.ok rows := by
        rcases hside with hs | hs
        · refine ⟨oc.calls, ?_⟩
          rw [hs]
          rfl
        · refine ⟨oc.puts, ?_⟩
          rw [hs]
          unfold getattrSide
          rw [if_neg (by decide), if_pos rfl]
      obtain ⟨rows, hrows⟩ := hget
      have hchain : (tk.chain (es.getD j 0)).bind (fun x => getattrSide x side)
          = Except.ok rows := by
        rw [hoc]
        exact hrows
      rw [buildPanel_state_of_ok tk side _ today _ rows hchain] at hstate
      exact absurd hstate (expectedState_ne_errorS rows)
    · intro hj0
      rw [hj0]
      rw [buildPanel_of_error tk side _ today _ e0 hchain0]
  · rw [hbp i0 hi0]
    rw [buildPanel_of_error tk side _ today _ e0 hchain0]
    refine ⟨expTitle today (es.getD i0 0) ++ "\n", "", ?_⟩
    show expTitle today (es.getD i0 0) ++ "\n(Error loading data)"
        = (expTitle today (es.getD i0 0) ++ "\n") ++ "(Error loading data)" ++ ""
    rw [str_append_empty, str_append_assoc]
    have hl : ("\n" ++ "(Error loading data)" : String) = "\n(Error loading data)" := rfl
    rw [hl]
  · intro j hj hne2 oc rows hoc hrows
    rw [hbp j hj]
    have hchain : (tk.chain (es.getD j 0)).bind (fun x => getattrSide x side)
        = Except.ok rows := by
      rw [hoc]
      exact hrows
    exact buildPanel_state_of_ok tk side _ today _ rows hchain

/-- Witness for C2 (amended): three expiration dates, of which
exactly the first chain fetch fails; the second panel has data and
the third has zero open interest. -/
theorem isolated_fetch_failure_containment_witness :
    isImageResult (generate_plot 0 tkOneBadFetch ("X") ("calls")) = true ∧
    (panelsOf (generate_plot 0 tkOneBadFetch ("X") ("calls"))).length
        = ([30, 60, 90] : List Int).length ∧
    (∀ j, j < ([30, 60, 90] : List Int).length →
      ((panelAt (generate_plot 0 tkOneBadFetch ("X") ("calls")) j).state
          = PanelState.errorS ↔ j = 0)) ∧
    (∃ a b, (panelAt (generate_plot 0 tkOneBadFetch ("X") ("calls")) 0).title
        = a ++ "(Error loading data)" ++ b) ∧
    (∀ j, j < ([30, 60, 90] : List Int).length → j ≠ 0 → ∀ oc rows,
      tkOneBadFetch.chain (([30, 60, 90] : List Int).getD j 0) = Except.ok oc →
      getattrSide oc ("calls") = Except.ok rows →
      (panelAt (generate_plot 0 tkOneBadFetch ("X") ("calls")) j).state
          = expectedState rows) :=
  isolated_fetch_failure_containment 0 tkOneBadFetch ("X") ("calls") [100] [30, 60, 90] 0
    rfl rfl rfl (by decide) (Or.inl rfl) (by decide) ⟨"boom", rfl⟩
    (by
      intro j hj hne2
      have hj3 : j < 3 := by simpa using hj
      interval_cases j
      · exact absurd rfl hne2
      · exact ⟨chainGoodA, rfl⟩
      · exact ⟨chainZeroOI, rfl⟩)
